import Mathlib

/-!
Shallow embedding of the 4D geometry kernel of the `cztery-de` repository
(`src/backend/main.py` and `src/shared/math4d.py`), together with theorems
settling the specification claims about it.

Real-valued coordinates are modelled as exact rationals (ℚ) for the purely
arithmetic operations (cube construction, translation, projection), and as
real numbers (ℝ) where trigonometric functions appear (rotation matrices,
matrix-vector multiplication).  Python's float division by zero raises
`ZeroDivisionError`; the projection is therefore embedded as an
`Except`-valued function.
-/

namespace CzteryDe

/-- `Vector4D` from `src/backend/main.py`: a 4D vector/point. -/
structure Vector4D where
  x : ℚ
  y : ℚ
  z : ℚ
  w : ℚ
deriving DecidableEq, Repr

/-- `Shape4D` from `src/backend/main.py`: vertices, edges (pairs of vertex
indices), and a position (defaulting to the origin in the source). -/
structure Shape4D where
  vertices : List Vector4D
  edges : List (ℕ × ℕ)
  position : Vector4D := ⟨0, 0, 0, 0⟩
deriving DecidableEq, Repr

/-- `Transform4D` from `src/backend/main.py`: six plane-rotation angles and a
translation vector, all defaulting to zero. -/
structure Transform4D where
  rotation_xy : ℚ := 0
  rotation_xz : ℚ := 0
  rotation_xw : ℚ := 0
  rotation_yz : ℚ := 0
  rotation_yw : ℚ := 0
  rotation_zw : ℚ := 0
  translation : Vector4D := ⟨0, 0, 0, 0⟩
deriving DecidableEq, Repr

/-- Number of 1-bits in the binary expansion, embedding Python's
`bin(n).count('1')`; the first argument is recursion fuel (`n` itself is
always enough fuel, since `n < 2 ^ n`). -/
def countOneBitsFuel : ℕ → ℕ → ℕ
  | 0, _ => 0
  | fuel + 1, n => if n = 0 then 0 else n % 2 + countOneBitsFuel fuel (n / 2)

/-- `bin(n).count('1')` from the Python sources: the binary Hamming weight. -/
def countOneBits (n : ℕ) : ℕ := countOneBitsFuel n n

/-- The vertex loop of `create_4d_cube` (`src/backend/main.py` lines 57-63):
for `i` in `range(16)`, each coordinate is `size` when the corresponding bit
of `i` is set (Python truthiness of `i & 1`, `i & 2`, `i & 4`, `i & 8`),
else `-size`. -/
def create_4d_cube_vertexList (size : ℚ) : List Vector4D :=
  (List.range 16).map fun i =>
    { x := if i &&& 1 ≠ 0 then size else -size
      y := if i &&& 2 ≠ 0 then size else -size
      z := if i &&& 4 ≠ 0 then size else -size
      w := if i &&& 8 ≠ 0 then size else -size }

/-- The edge loop of `create_4d_cube` (`src/backend/main.py` lines 66-72):
for `i` in `range(16)` and `j` in `range(i+1, 16)`, append `[i, j]` when
`bin(i ^ j).count('1') == 1`. -/
def create_4d_cube_edgeList : List (ℕ × ℕ) :=
  (List.range 16).flatMap fun i =>
    ((List.range' (i + 1) (16 - (i + 1))).filter
      fun j => countOneBits (i ^^^ j) = 1).map fun j => (i, j)

/-- `create_4d_cube` from `src/backend/main.py`: the 4D hypercube (tesseract)
shape, with the position left at its default. -/
def create_4d_cube (size : ℚ) : Shape4D :=
  { vertices := create_4d_cube_vertexList size
    edges := create_4d_cube_edgeList }

/-- `apply_transform` from `src/backend/main.py`: returns the shape with the
same vertices and edges and the position translated by
`transform.translation`; the rotation fields are not read. -/
def apply_transform (shape : Shape4D) (transform : Transform4D) : Shape4D :=
  { vertices := shape.vertices
    edges := shape.edges
    position :=
      { x := shape.position.x + transform.translation.x
        y := shape.position.y + transform.translation.y
        z := shape.position.z + transform.translation.z
        w := shape.position.w + transform.translation.w } }

/-- `create_4d_cube_vertices` from `src/shared/math4d.py`: the same vertex
loop as the backend, producing coordinate tuples. -/
def create_4d_cube_vertices (size : ℚ) : List (ℚ × ℚ × ℚ × ℚ) :=
  (List.range 16).map fun i =>
    ( if i &&& 1 ≠ 0 then size else -size
    , if i &&& 2 ≠ 0 then size else -size
    , if i &&& 4 ≠ 0 then size else -size
    , if i &&& 8 ≠ 0 then size else -size )

/-- `create_4d_cube_edges` from `src/shared/math4d.py`: the same edge loop as
the backend, producing index pairs. -/
def create_4d_cube_edges : List (ℕ × ℕ) :=
  (List.range 16).flatMap fun i =>
    ((List.range' (i + 1) (16 - (i + 1))).filter
      fun j => countOneBits (i ^^^ j) = 1).map fun j => (i, j)

/-- Error raised by Python when a float division has a zero divisor. -/
inductive PyError where
  | zeroDivisionError
deriving DecidableEq, Repr

/-- `project_4d_to_3d` from `src/shared/math4d.py`: perspective projection
with `factor = distance / (distance - w)`.  The division is unguarded in the
source; in Python a zero divisor raises `ZeroDivisionError`, modelled here as
the `Except.error` branch. -/
def project_4d_to_3d (point : ℚ × ℚ × ℚ × ℚ) (distance : ℚ) :
    Except PyError (ℚ × ℚ × ℚ) :=
  let (x, y, z, w) := point
  if distance - w = 0 then
    Except.error PyError.zeroDivisionError
  else
    let factor := distance / (distance - w)
    Except.ok (x * factor, y * factor, z * factor)

/-- `rotation_matrix_4d_xy` from `src/shared/math4d.py`. -/
noncomputable def rotation_matrix_4d_xy (angle : ℝ) : List (List ℝ) :=
  [ [Real.cos angle, -Real.sin angle, 0, 0]
  , [Real.sin angle, Real.cos angle, 0, 0]
  , [0, 0, 1, 0]
  , [0, 0, 0, 1] ]

/-- `rotation_matrix_4d_xz` from `src/shared/math4d.py`. -/
noncomputable def rotation_matrix_4d_xz (angle : ℝ) : List (List ℝ) :=
  [ [Real.cos angle, 0, -Real.sin angle, 0]
  , [0, 1, 0, 0]
  , [Real.sin angle, 0, Real.cos angle, 0]
  , [0, 0, 0, 1] ]

/-- `rotation_matrix_4d_xw` from `src/shared/math4d.py`. -/
noncomputable def rotation_matrix_4d_xw (angle : ℝ) : List (List ℝ) :=
  [ [Real.cos angle, 0, 0, -Real.sin angle]
  , [0, 1, 0, 0]
  , [0, 0, 1, 0]
  , [Real.sin angle, 0, 0, Real.cos angle] ]

/-- Entry `matrix[i][j]` of a matrix represented as a list of rows. -/
def mEntry (m : List (List ℝ)) (i j : ℕ) : ℝ := (m.getD i []).getD j 0

/-- Component `vector[j]` of a 4-tuple, as Python tuple indexing. -/
def vComp (v : ℝ × ℝ × ℝ × ℝ) : ℕ → ℝ
  | 0 => v.1
  | 1 => v.2.1
  | 2 => v.2.2.1
  | 3 => v.2.2.2
  | _ => 0

/-- `matrix_multiply_4d` from `src/shared/math4d.py`: starts from
`result = [0, 0, 0, 0]` and accumulates `matrix[i][j] * vector[j]` into
`result[i]` over `i` and `j` in `range(4)`, returning the final list (the
source converts it to a tuple). -/
def matrix_multiply_4d (matrix : List (List ℝ)) (vector : ℝ × ℝ × ℝ × ℝ) :
    List ℝ :=
  (List.range 4).foldl
    (fun result i =>
      (List.range 4).foldl
        (fun r j => r.set i (r.getD i 0 + mEntry matrix i j * vComp vector j))
        result)
    [0, 0, 0, 0]

/-- Modelled from the spec's wording for rotation-matrix builders: the entry
at row `i`, column `j` of the 4×4 identity matrix with the 2×2 block
`[[cos θ, -sin θ], [sin θ, cos θ]]` placed at the rows/columns of the plane's
two axes `a` and `b`, with 1 on the remaining diagonal and 0 elsewhere. -/
noncomputable def planeRotationEntry (a b : ℕ) (θ : ℝ) (i j : ℕ) : ℝ :=
  if i = a ∧ j = a then Real.cos θ
  else if i = a ∧ j = b then -Real.sin θ
  else if i = b ∧ j = a then Real.sin θ
  else if i = b ∧ j = b then Real.cos θ
  else if i = j then 1 else 0

/-- C1: for every size, `create_4d_cube` produces exactly 16 vertices, and
vertex `i` has coordinate `+size` on axis x when bit 0 of `i` is set and
`-size` otherwise, and likewise bit 1 for y, bit 2 for z, bit 3 for w. -/
theorem C1_create_4d_cube_vertex_spec (size : ℚ) :
    (create_4d_cube size).vertices.length = 16 ∧
    ∀ i : Fin 16,
      (create_4d_cube size).vertices.getD i.val ⟨0, 0, 0, 0⟩ =
        { x := if Nat.testBit i.val 0 then size else -size
          y := if Nat.testBit i.val 1 then size else -size
          z := if Nat.testBit i.val 2 then size else -size
          w := if Nat.testBit i.val 3 then size else -size } := by
  refine ⟨rfl, fun i => ?_⟩
  fin_cases i <;> rfl

/-- C2: for every size > 0, the edge list of `create_4d_cube` contains the
pair `(i, j)` with `i < j` in `[0, 16)` exactly when the Hamming weight of
`i XOR j` is 1; there are exactly 32 edges and each of the 16 vertices is
incident to exactly 4 of them. -/
theorem C2_create_4d_cube_edge_spec (size : ℚ) (h : 0 < size) :
    (∀ i j : ℕ, (i, j) ∈ (create_4d_cube size).edges ↔
        i < j ∧ j < 16 ∧ countOneBits (i ^^^ j) = 1) ∧
    (create_4d_cube size).edges.length = 32 ∧
    ∀ v : Fin 16,
      ((create_4d_cube size).edges.filter
        (fun e => e.1 = v.val ∨ e.2 = v.val)).length = 4 := by
  refine ⟨fun i j => ⟨fun hm => ?_, fun hc => ?_⟩, ?_, ?_⟩
  · have hall : ∀ e ∈ create_4d_cube_edgeList,
        e.1 < e.2 ∧ e.2 < 16 ∧ countOneBits (e.1 ^^^ e.2) = 1 := by decide
    exact hall (i, j) hm
  · have hfin : ∀ a b : Fin 16, a.val < b.val → countOneBits (a.val ^^^ b.val) = 1 →
        (a.val, b.val) ∈ create_4d_cube_edgeList := by decide
    exact hfin ⟨i, lt_trans hc.1 hc.2.1⟩ ⟨j, hc.2.1⟩ hc.1 hc.2.2
  · exact (show create_4d_cube_edgeList.length = 32 by decide)
  · exact (show ∀ v : Fin 16,
      ((create_4d_cube_edgeList.filter
        (fun e => e.1 = v.val ∨ e.2 = v.val)).length = 4) by decide)

/-- Witness for C2 at size 1: edge (3, 7) is present and the edge count
is 32. -/
theorem C2_create_4d_cube_edge_spec_witness :
    (3, 7) ∈ (create_4d_cube 1).edges ∧ (create_4d_cube 1).edges.length = 32 :=
  have h := C2_create_4d_cube_edge_spec 1 (by norm_num)
  ⟨(h.1 3 7).mpr (by decide), h.2.1⟩

/-- C3: `apply_transform` returns a shape with the input's vertices and
edges, position translated component-wise by `transform.translation`, and a
result independent of the six rotation-angle fields (any transform with the
same translation gives the same result). -/
theorem C3_apply_transform_contract (s : Shape4D) (t : Transform4D) :
    (apply_transform s t).vertices = s.vertices ∧
    (apply_transform s t).edges = s.edges ∧
    (apply_transform s t).position =
      { x := s.position.x + t.translation.x
        y := s.position.y + t.translation.y
        z := s.position.z + t.translation.z
        w := s.position.w + t.translation.w } ∧
    ∀ u : Transform4D, u.translation = t.translation →
      apply_transform s u = apply_transform s t := by
  refine ⟨rfl, rfl, rfl, fun u hu => ?_⟩
  simp [apply_transform, hu]

/-- Witness for C3: a transform with arbitrary non-zero rotation angles and
translation (1,2,3,4) acts exactly as the rotation-free transform with the
same translation. -/
theorem C3_apply_transform_contract_witness :
    apply_transform ⟨[⟨1, 0, 0, 0⟩], [(0, 1)], ⟨0, 0, 0, 0⟩⟩
        ⟨9, 8, 7, 6, 5, 4, ⟨1, 2, 3, 4⟩⟩ =
      apply_transform ⟨[⟨1, 0, 0, 0⟩], [(0, 1)], ⟨0, 0, 0, 0⟩⟩
        ⟨0, 0, 0, 0, 0, 0, ⟨1, 2, 3, 4⟩⟩ :=
  (C3_apply_transform_contract ⟨[⟨1, 0, 0, 0⟩], [(0, 1)], ⟨0, 0, 0, 0⟩⟩
    ⟨0, 0, 0, 0, 0, 0, ⟨1, 2, 3, 4⟩⟩).2.2.2 ⟨9, 8, 7, 6, 5, 4, ⟨1, 2, 3, 4⟩⟩ rfl

/-- C4: when the viewer distance equals the point's w coordinate the divisor
`distance - w` is zero and `project_4d_to_3d` fails with the
division-by-zero error (Python raises `ZeroDivisionError` on the unguarded
float division) instead of returning a value. -/
theorem C4_project_4d_to_3d_zero_divisor (p : ℚ × ℚ × ℚ × ℚ) (d : ℚ)
    (h : d = p.2.2.2) :
    project_4d_to_3d p d = Except.error PyError.zeroDivisionError := by
  obtain ⟨x, y, z, w⟩ := p
  simp [project_4d_to_3d, h]

/-- Witness for C4: projecting (1, 2, 3, 5) at distance 5 fails. -/
theorem C4_project_4d_to_3d_zero_divisor_witness :
    project_4d_to_3d (1, 2, 3, 5) 5 = Except.error PyError.zeroDivisionError :=
  C4_project_4d_to_3d_zero_divisor (1, 2, 3, 5) 5 rfl

/-- C5: for `d ≠ w`, `project_4d_to_3d` returns
`(x * factor, y * factor, z * factor)` with
`factor = d / (d - w)`; in particular (0,0,0,0) at distance 5 projects to
(0,0,0) and (1,1,1,4) at distance 5 projects to (5,5,5). -/
theorem C5_project_4d_to_3d_formula (x y z w d : ℚ) (h : d ≠ w) :
    project_4d_to_3d (x, y, z, w) d =
      Except.ok (x * (d / (d - w)), y * (d / (d - w)), z * (d / (d - w))) ∧
    project_4d_to_3d (0, 0, 0, 0) 5 = Except.ok (0, 0, 0) ∧
    project_4d_to_3d (1, 1, 1, 4) 5 = Except.ok (5, 5, 5) := by
  refine ⟨?_, by norm_num [project_4d_to_3d], by norm_num [project_4d_to_3d]⟩
  simp [project_4d_to_3d, sub_eq_zero, h]

/-- Witness for C5: projecting (2, 3, 4, 1) at distance 5 follows the factor
formula. -/
theorem C5_project_4d_to_3d_formula_witness :
    project_4d_to_3d (2, 3, 4, 1) 5 =
      Except.ok (2 * (5 / (5 - 1)), 3 * (5 / (5 - 1)), 4 * (5 / (5 - 1))) :=
  (C5_project_4d_to_3d_formula 2 3 4 1 5 (by norm_num)).1

/-- C6: `apply_transform` with the identity transform (all six rotation
angles 0, zero translation) returns the input shape unchanged. -/
theorem C6_apply_transform_identity (s : Shape4D) :
    apply_transform s ⟨0, 0, 0, 0, 0, 0, ⟨0, 0, 0, 0⟩⟩ = s := by
  cases s with
  | mk v e p => cases p; simp [apply_transform]

/-- C7: each implemented rotation-matrix builder equals the 4×4 identity
matrix with the standard 2×2 rotation block at its plane's axes (xy at
rows/cols 0,1; xz at 0,2; xw at 0,3), and the xy matrix at angle 0 is the
identity matrix. -/
theorem C7_rotation_matrix_plane_spec (θ : ℝ) (i j : Fin 4) :
    mEntry (rotation_matrix_4d_xy θ) i.val j.val = planeRotationEntry 0 1 θ i.val j.val ∧
    mEntry (rotation_matrix_4d_xz θ) i.val j.val = planeRotationEntry 0 2 θ i.val j.val ∧
    mEntry (rotation_matrix_4d_xw θ) i.val j.val = planeRotationEntry 0 3 θ i.val j.val ∧
    rotation_matrix_4d_xy 0 = [[1, 0, 0, 0], [0, 1, 0, 0], [0, 0, 1, 0], [0, 0, 0, 1]] := by
  refine ⟨?_, ?_, ?_, by simp [rotation_matrix_4d_xy]⟩ <;>
    fin_cases i <;> fin_cases j <;>
      simp [mEntry, planeRotationEntry, rotation_matrix_4d_xy,
        rotation_matrix_4d_xz, rotation_matrix_4d_xw]

set_option maxHeartbeats 1600000 in
/-- C8: `matrix_multiply_4d` computes the standard matrix-vector product:
component `i` of the result is the sum over `j` in `[0, 4)` of
`matrix[i][j] * vector[j]`. -/
theorem C8_matrix_multiply_4d_spec (m : List (List ℝ)) (v : ℝ × ℝ × ℝ × ℝ)
    (i : Fin 4) :
    (matrix_multiply_4d m v).getD i.val 0 =
      ∑ j ∈ Finset.range 4, mEntry m i.val j * vComp v j := by
  have h0 : matrix_multiply_4d m v =
      [ 0 + mEntry m 0 0 * vComp v 0 + mEntry m 0 1 * vComp v 1
          + mEntry m 0 2 * vComp v 2 + mEntry m 0 3 * vComp v 3
      , 0 + mEntry m 1 0 * vComp v 0 + mEntry m 1 1 * vComp v 1
          + mEntry m 1 2 * vComp v 2 + mEntry m 1 3 * vComp v 3
      , 0 + mEntry m 2 0 * vComp v 0 + mEntry m 2 1 * vComp v 1
          + mEntry m 2 2 * vComp v 2 + mEntry m 2 3 * vComp v 3
      , 0 + mEntry m 3 0 * vComp v 0 + mEntry m 3 1 * vComp v 1
          + mEntry m 3 2 * vComp v 2 + mEntry m 3 3 * vComp v 3 ] := rfl
  fin_cases i <;> simp [h0, Finset.sum_range_succ]

/-- C9: every generated edge pair is canonically ordered with `i < j` (hence
irreflexive) and indices below the vertex count, the edge list has no
duplicates and no reversed pair of a present edge, and `apply_transform`
returns the edge list unchanged. -/
theorem C9_edge_invariants (size : ℚ) (s : Shape4D) (t : Transform4D) :
    (∀ e ∈ (create_4d_cube size).edges,
        e.1 < e.2 ∧ e.2 < (create_4d_cube size).vertices.length) ∧
    (create_4d_cube size).edges.Nodup ∧
    (∀ e ∈ (create_4d_cube size).edges, (e.2, e.1) ∉ (create_4d_cube size).edges) ∧
    (apply_transform s t).edges = s.edges := by
  refine ⟨fun e he => ?_, ?_, ?_, rfl⟩
  · have h16 : (create_4d_cube size).vertices.length = 16 := rfl
    rw [h16]
    exact (show ∀ e ∈ create_4d_cube_edgeList, e.1 < e.2 ∧ e.2 < 16 by decide) e he
  · exact (show create_4d_cube_edgeList.Nodup by decide)
  · exact (show ∀ e ∈ create_4d_cube_edgeList,
      (e.2, e.1) ∉ create_4d_cube_edgeList by decide)

/-- Witness for C9 at size 1: the edge (0, 1) is canonically ordered and in
range, and the reverse of the present edge (1, 3) is absent. -/
theorem C9_edge_invariants_witness :
    ((0 : ℕ) < 1 ∧ (1 : ℕ) < (create_4d_cube 1).vertices.length) ∧
      (3, 1) ∉ (create_4d_cube 1).edges :=
  have h := C9_edge_invariants 1 (create_4d_cube 1) ⟨1, 2, 3, 4, 5, 6, ⟨7, 8, 9, 10⟩⟩
  ⟨h.1 (0, 1) (by decide), h.2.2.1 (1, 3) (by decide)⟩

/-- C10: the backend `create_4d_cube` and the shared-module pair
`create_4d_cube_vertices` / `create_4d_cube_edges` agree: vertex `k` of the
backend shape has the same four components as the `k`-th shared tuple, and
the two edge lists are equal element-wise in the same order. -/
theorem C10_backend_shared_equivalence (size : ℚ) (k : Fin 16) :
    (create_4d_cube size).vertices.length = (create_4d_cube_vertices size).length ∧
    ((create_4d_cube size).vertices.getD k.val ⟨0, 0, 0, 0⟩).x =
      ((create_4d_cube_vertices size).getD k.val (0, 0, 0, 0)).1 ∧
    ((create_4d_cube size).vertices.getD k.val ⟨0, 0, 0, 0⟩).y =
      ((create_4d_cube_vertices size).getD k.val (0, 0, 0, 0)).2.1 ∧
    ((create_4d_cube size).vertices.getD k.val ⟨0, 0, 0, 0⟩).z =
      ((create_4d_cube_vertices size).getD k.val (0, 0, 0, 0)).2.2.1 ∧
    ((create_4d_cube size).vertices.getD k.val ⟨0, 0, 0, 0⟩).w =
      ((create_4d_cube_vertices size).getD k.val (0, 0, 0, 0)).2.2.2 ∧
    (create_4d_cube size).edges = create_4d_cube_edges := by
  fin_cases k <;> exact ⟨rfl, rfl, rfl, rfl, rfl, rfl⟩

end CzteryDe
